import Mathlib

/-!
Verification of the tool-calling core of the `tool-use-bible` repository.

The development shallowly embeds the Python sources `tool.py`,
`tool_agent.py` and `daily_verse_agent.py`:

* Python runtime values are modelled by the inductive type `PyVal`
  (floats are idealised as exact rationals; no claim depends on IEEE
  rounding).
* Fallible Python code is modelled with `Except PyErr`, where `PyErr`
  records the exception class (KeyError, TypeError, ...) that the
  corresponding Python statement raises.
* External collaborators (the Groq LLM client, `json.loads` from the
  standard library, the bodies of the registered tools which perform
  network I/O) are parameters of the embedded orchestrator, exactly as
  the specification treats them: opaque request/response collaborators.
-/

namespace ToolUseBible

/-- Model of a Python runtime value, as produced by `json.loads` and
consumed by `validate_argument` and the tools.  Floats are modelled as
exact rationals. -/
inductive PyVal where
  | pyNone : PyVal
  | pyBool : Bool → PyVal
  | pyInt : Int → PyVal
  | pyFloat : Rat → PyVal
  | pyStr : String → PyVal
  | pyList : List PyVal → PyVal
  | pyDict : List (String × PyVal) → PyVal
deriving Repr

/-- Model of the Python exception classes that the embedded code can
raise, each carrying enough data to rebuild the message text. -/
inductive PyErr where
  | keyError : String → PyErr
  | typeError : String → PyErr
  | attributeError : String → PyErr
  | indexError : PyErr
  | jsonDecodeError : PyErr
  | toolExecutionError : PyErr
  | providerError : PyErr
deriving Repr, DecidableEq

/-- Association-list lookup used to model Python `dict` subscripting
and `dict.get`; CPython dicts preserve insertion order and the embedded
code only ever builds string-keyed dicts. -/
def assocFind : List (String × PyVal) → String → Option PyVal
  | [], _ => none
  | (k, v) :: rest, key => if k == key then some v else assocFind rest key

/-- Replace the value at the first occurrence of `key` (append when the
key is absent), modelling in-place assignment `d[key] = v`. -/
def assocSet : List (String × PyVal) → String → PyVal → List (String × PyVal)
  | [], key, v => [(key, v)]
  | (k, w) :: rest, key, v =>
    if k == key then (k, v) :: rest else (k, w) :: assocSet rest key v

/-- Python `d[key]` on a value: KeyError when the key is missing,
TypeError when the value is not a dict. -/
def pyGet (v : PyVal) (key : String) : Except PyErr PyVal :=
  match v with
  | .pyDict l =>
    match assocFind l key with
    | some w => .ok w
    | none => .error (.keyError key)
  | _ => .error (.typeError "value is not subscriptable")

/-- Python `d.get(key)` on a value: `None`-as-`Option` result;
AttributeError when the value is not a dict. -/
def pyGetOpt (v : PyVal) (key : String) : Except PyErr (Option PyVal) :=
  match v with
  | .pyDict l => .ok (assocFind l key)
  | _ => .error (.attributeError "get")

/-- Python `d[key] = w` on a dict value (the embedded code only assigns
into values it has already subscripted as dicts). -/
def pySet (v : PyVal) (key : String) (w : PyVal) : PyVal :=
  match v with
  | .pyDict l => .pyDict (assocSet l key w)
  | other => other

/-- Membership in `tool.py`'s `type_mapping` dict, whose keys are
`"int"`, `"str"`, `"bool"` and `"float"`. -/
def typeMappingHas (t : String) : Bool :=
  t == "int" || t == "str" || t == "bool" || t == "float"

/-- Python `isinstance(v, cls)` for the four classes in `type_mapping`.
Note that in CPython `bool` is a subclass of `int`, so a boolean is an
instance of `int`. -/
def isinst (v : PyVal) (t : String) : Bool :=
  match v, t with
  | .pyInt _, "int" => true
  | .pyBool _, "int" => true
  | .pyBool _, "bool" => true
  | .pyFloat _, "float" => true
  | .pyStr _, "str" => true
  | _, _ => false

/-- Python truthiness `bool(v)` (total: the builtin never raises on the
modelled values). -/
def pyTruthy (v : PyVal) : Bool :=
  match v with
  | .pyNone => false
  | .pyBool b => b
  | .pyInt n => n != 0
  | .pyFloat q => q != 0
  | .pyStr s => s != ""
  | .pyList l => !l.isEmpty
  | .pyDict l => !l.isEmpty

/-- Python `str.strip()` with no argument: remove leading and trailing
whitespace (modelled on ASCII whitespace, which covers every string
the program manipulates). -/
def pyStrip (s : String) : String :=
  ⟨((s.data.dropWhile Char.isWhitespace).reverse.dropWhile Char.isWhitespace).reverse⟩

/-- All decimal digits, nonempty, to a natural number. -/
def digitsToNat : List Char → Option Nat
  | [] => none
  | cs => cs.foldlM (fun acc c => if c.isDigit then some (acc * 10 + (c.toNat - 48)) else none) 0

/-- Model of Python `int(s)` on a string: surrounding whitespace is
ignored, an optional sign precedes a nonempty run of decimal digits;
anything else raises ValueError (`none`). -/
def pyIntOfString (s : String) : Option Int :=
  match (pyStrip s).data with
  | '+' :: rest => (digitsToNat rest).map Int.ofNat
  | '-' :: rest => (digitsToNat rest).map (fun n => -(Int.ofNat n))
  | other => (digitsToNat other).map Int.ofNat

/-- Model of Python `float(s)` on a string: optional sign, decimal
digits with an optional single point; the value is the exact rational
denoted (decimal floats are idealised as exact rationals). -/
def pyFloatOfString (s : String) : Option Rat :=
  let core : List Char → Option Rat := fun cs =>
    match cs.splitOn '.' with
    | [intPart] => (digitsToNat intPart).map (fun n => (n : Rat))
    | [intPart, fracPart] =>
      match intPart, fracPart with
      | [], [] => none
      | _, _ =>
        let ip := if intPart.isEmpty then some 0 else digitsToNat intPart
        let fp := if fracPart.isEmpty then some 0 else digitsToNat fracPart
        match ip, fp with
        | some i, some f => some ((i : Rat) + (f : Rat) / ((10 : Rat) ^ fracPart.length))
        | _, _ => none
    | _ => none
  match (pyStrip s).data with
  | '+' :: rest => core rest
  | '-' :: rest => (core rest).map (fun q => -q)
  | other => core other

/-- Python `int(q)` on a float: truncation toward zero. -/
def pyIntOfFloat (q : Rat) : Int :=
  if q ≥ 0 then ⌊q⌋ else ⌈q⌉

/-- Model of Python `str(v)`.  The rendering of containers is
abbreviated (no registered tool returns one and no claim depends on
it); floats with integral value print with a trailing `.0` as in
CPython. -/
def pyStrOfVal (v : PyVal) : String :=
  match v with
  | .pyNone => "None"
  | .pyBool b => if b then "True" else "False"
  | .pyInt n => toString n
  | .pyFloat q => if q.den == 1 then toString q.num ++ ".0" else toString q.num ++ "/" ++ toString q.den
  | .pyStr s => s
  | .pyList _ => "[list]"
  | .pyDict _ => "[dict]"

/-- Python `type_mapping[expected_type](arg_value)`: conversion of a
value to the class named `t`; `none` models the ValueError/TypeError
that `validate_argument` catches. -/
def pyConvert (t : String) (v : PyVal) : Option PyVal :=
  match t with
  | "int" =>
    match v with
    | .pyStr s => (pyIntOfString s).map .pyInt
    | .pyFloat q => some (.pyInt (pyIntOfFloat q))
    | .pyBool b => some (.pyInt (if b then 1 else 0))
    | .pyInt n => some (.pyInt n)
    | _ => none
  | "float" =>
    match v with
    | .pyStr s => (pyFloatOfString s).map .pyFloat
    | .pyInt n => some (.pyFloat (n : Rat))
    | .pyBool b => some (.pyFloat (if b then 1 else 0))
    | .pyFloat q => some (.pyFloat q)
    | _ => none
  | "bool" => some (.pyBool (pyTruthy v))
  | "str" => some (.pyStr (pyStrOfVal v))
  | _ => none

/-- One iteration of `validate_argument`'s `for` loop:
`expected_type = properties[arg_name].get("type")` (KeyError when
`arg_name` is not declared, AttributeError when the property is not a
dict), `type_mapping[expected_type]` (KeyError when the tag is not one
of the four class names), the `isinstance` test, and on mismatch the
conversion attempt whose failure is re-raised as
`TypeError("Could not convert argument ...")`. -/
def stepArg (properties : PyVal) (argName : String) (argValue : PyVal) : Except PyErr PyVal :=
  match pyGet properties argName with
  | .error e => .error e
  | .ok prop =>
    match pyGetOpt prop "type" with
    | .error e => .error e
    | .ok tyOpt =>
      match tyOpt with
      | some (.pyStr t) =>
        if typeMappingHas t then
          if isinst argValue t then .ok argValue
          else
            match pyConvert t argValue with
            | some w => .ok w
            | none => .error (.typeError argName)
        else .error (.keyError t)
      | some _ => .error (.typeError "unhashable type key")
      | none => .error (.keyError "None")

/-- The `for` loop of `validate_argument` over
`tool_call["arguments"].items()`, processing the items in insertion
order; the first raised exception aborts the loop. -/
def validateItems (properties : PyVal) : List (String × PyVal) → Except PyErr (List (String × PyVal))
  | [] => .ok []
  | (argName, argValue) :: rest =>
    match stepArg properties argName argValue with
    | .error e => .error e
    | .ok newValue =>
      match validateItems properties rest with
      | .error e => .error e
      | .ok restOut => .ok ((argName, newValue) :: restOut)

/-- Embedding of `validate_argument` from `tool.py` (lines 36-66):
reads `tool_signature["parameters"]["properties"]`, walks the items of
`tool_call["arguments"]`, leaves correctly-typed values unchanged,
converts the rest through `type_mapping`, and returns the (mutated)
`tool_call`. -/
def validate_argument (tool_call : PyVal) (tool_signature : PyVal) : Except PyErr PyVal :=
  match pyGet tool_signature "parameters" with
  | .error e => .error e
  | .ok params =>
    match pyGet params "properties" with
    | .error e => .error e
    | .ok properties =>
      match pyGet tool_call "arguments" with
      | .error e => .error e
      | .ok (.pyDict items) =>
        match validateItems properties items with
        | .error e => .error e
        | .ok itemsOut => .ok (pySet tool_call "arguments" (.pyDict itemsOut))
      | .ok _ => .error (.attributeError "items")

/-! ### Lemmas about the argument-validation loop -/

theorem stepArg_keyError_of_absent {pl : List (String × PyVal)} {n : String} {v : PyVal}
    (habs : assocFind pl n = none) :
    stepArg (.pyDict pl) n v = .error (.keyError n) := by
  simp only [stepArg, pyGet, habs]

theorem validateItems_isError_of_mem {properties : PyVal} {items : List (String × PyVal)}
    {n : String} {v : PyVal} {e : PyErr}
    (hmem : (n, v) ∈ items) (hstep : stepArg properties n v = .error e) :
    ∃ e2, validateItems properties items = .error e2 := by
  induction items with
  | nil => cases hmem
  | cons hd tl ih =>
    obtain ⟨m, w⟩ := hd
    rcases List.mem_cons.mp hmem with heq | htl
    · injection heq with h1 h2
      subst h1; subst h2
      exact ⟨e, by simp only [validateItems, hstep]⟩
    · cases hs : stepArg properties m w with
      | error e3 => exact ⟨e3, by simp only [validateItems, hs]⟩
      | ok w2 =>
        obtain ⟨e2, h2⟩ := ih htl
        exact ⟨e2, by simp only [validateItems, hs, h2]⟩

theorem validateItems_append_error {properties : PyVal} {n : String} {v : PyVal} {e : PyErr}
    (pre post : List (String × PyVal))
    (hpre : ∀ p ∈ pre, ∃ w, stepArg properties p.1 p.2 = .ok w)
    (hstep : stepArg properties n v = .error e) :
    validateItems properties (pre ++ (n, v) :: post) = .error e := by
  induction pre with
  | nil => simp only [List.nil_append, validateItems, hstep]
  | cons hd tl ih =>
    obtain ⟨m, w⟩ := hd
    obtain ⟨w2, hw2⟩ := hpre (m, w) (List.mem_cons_self _ _)
    have ih2 := ih (fun p hp => hpre p (List.mem_cons_of_mem _ hp))
    simp only [List.cons_append, validateItems, hw2, List.append_eq, ih2]

theorem validateItems_id {properties : PyVal} {items : List (String × PyVal)}
    (hall : ∀ p ∈ items, ∃ prop t, pyGet properties p.1 = .ok prop ∧
        pyGetOpt prop "type" = .ok (some (.pyStr t)) ∧ typeMappingHas t = true ∧
        isinst p.2 t = true) :
    validateItems properties items = .ok items := by
  induction items with
  | nil => rfl
  | cons hd tl ih =>
    obtain ⟨m, w⟩ := hd
    obtain ⟨prop, t, h1, h2, h3, h4⟩ := hall (m, w) (List.mem_cons_self _ _)
    have hstep : stepArg properties m w = .ok w := by
      simp only [stepArg, h1, h2, h3, h4, if_true]
    have htl := ih (fun p hp => hall p (List.mem_cons_of_mem _ hp))
    simp only [validateItems, hstep, htl]

theorem assocSet_self {l : List (String × PyVal)} {k : String} {v : PyVal}
    (h : assocFind l k = some v) : assocSet l k v = l := by
  induction l with
  | nil => simp [assocFind] at h
  | cons hd tl ih =>
    obtain ⟨m, w⟩ := hd
    by_cases hk : (m == k) = true
    · have hw : w = v := by
        have := h
        simp only [assocFind, hk, if_true, Option.some.injEq] at this
        exact this
      subst hw
      simp [assocSet, hk]
    · have htl : assocFind tl k = some v := by
        have := h
        simpa only [assocFind, hk, if_false, Bool.false_eq_true, ite_false] using this
      simp [assocSet, hk, ih htl]

/-- C4: supplying an argument name absent from the signature's
parameter mapping makes `validate_argument` raise (it never silently
drops the argument or returns successfully); when every argument before
the unknown one validates, the raised error is the KeyError naming the
unknown argument. -/
theorem validate_argument_rejects_unknown_argument
    (tool_call sig params : PyVal) (pl items : List (String × PyVal))
    (n : String) (v : PyVal)
    (hsig1 : pyGet sig "parameters" = .ok params)
    (hsig2 : pyGet params "properties" = .ok (.pyDict pl))
    (hargs : pyGet tool_call "arguments" = .ok (.pyDict items))
    (hmem : (n, v) ∈ items)
    (habs : assocFind pl n = none) :
    (∃ e, validate_argument tool_call sig = .error e) ∧
    (∀ pre post, items = pre ++ (n, v) :: post →
        (∀ p ∈ pre, ∃ w, stepArg (.pyDict pl) p.1 p.2 = .ok w) →
        validate_argument tool_call sig = .error (.keyError n)) := by
  have hstep : stepArg (.pyDict pl) n v = .error (.keyError n) :=
    stepArg_keyError_of_absent habs
  constructor
  · obtain ⟨e2, h2⟩ := validateItems_isError_of_mem hmem hstep
    exact ⟨e2, by simp only [validate_argument, hsig1, hsig2, hargs, h2]⟩
  · intro pre post hsplit hpre
    have h2 : validateItems (.pyDict pl) items = .error (.keyError n) := by
      rw [hsplit]; exact validateItems_append_error pre post hpre hstep
    simp only [validate_argument, hsig1, hsig2, hargs, h2]

/-- Witness for C4 at a concrete input: the invocation supplies
`bogus`, which `search_topic`'s signature does not declare. -/
theorem validate_argument_rejects_unknown_argument_witness :
    validate_argument
        (.pyDict [("name", .pyStr "search_topic"),
                  ("arguments", .pyDict [("bogus", .pyStr "x")])])
        (.pyDict [("name", .pyStr "search_topic"),
                  ("parameters", .pyDict [("properties", .pyDict
                     [("topic", .pyDict [("type", .pyStr "str")])])])])
      = .error (.keyError "bogus") :=
  (validate_argument_rejects_unknown_argument
      (.pyDict [("name", .pyStr "search_topic"),
                ("arguments", .pyDict [("bogus", .pyStr "x")])])
      (.pyDict [("name", .pyStr "search_topic"),
                ("parameters", .pyDict [("properties", .pyDict
                   [("topic", .pyDict [("type", .pyStr "str")])])])])
      (.pyDict [("properties", .pyDict [("topic", .pyDict [("type", .pyStr "str")])])])
      [("topic", .pyDict [("type", .pyStr "str")])] [("bogus", .pyStr "x")]
      "bogus" (.pyStr "x") rfl rfl rfl (List.mem_cons_self _ _) rfl).2
    [] [] rfl (by intro p hp; cases hp)

/-- C5: `validate_argument` is idempotent on already-correctly-typed
invocations: when every supplied argument's runtime type already
matches the type declared for it in the signature, the invocation is
returned unchanged. -/
theorem validate_argument_idempotent_on_typed_invocation
    (fields items : List (String × PyVal)) (sig params properties : PyVal)
    (hargs : assocFind fields "arguments" = some (.pyDict items))
    (hsig1 : pyGet sig "parameters" = .ok params)
    (hsig2 : pyGet params "properties" = .ok properties)
    (hall : ∀ p ∈ items, ∃ prop t, pyGet properties p.1 = .ok prop ∧
        pyGetOpt prop "type" = .ok (some (.pyStr t)) ∧ typeMappingHas t = true ∧
        isinst p.2 t = true) :
    validate_argument (.pyDict fields) sig = .ok (.pyDict fields) := by
  have hid := validateItems_id hall
  have hget : pyGet (.pyDict fields) "arguments" = .ok (.pyDict items) := by
    simp only [pyGet, hargs]
  have hset : pySet (.pyDict fields) "arguments" (.pyDict items) = .pyDict fields := by
    simp only [pySet, assocSet_self hargs]
  simp only [validate_argument, hsig1, hsig2, hget, hid, hset]

/-- Witness for C5 at a concrete input: a `get_verse_by_chapter` call
whose `book` is already a string and whose `chapter` is already an
integer comes back unchanged. -/
theorem validate_argument_idempotent_witness :
    validate_argument
        (.pyDict [("name", .pyStr "get_verse_by_chapter"),
                  ("arguments", .pyDict [("book", .pyStr "John"), ("chapter", .pyInt 3)])])
        (.pyDict [("name", .pyStr "get_verse_by_chapter"),
                  ("parameters", .pyDict [("properties", .pyDict
                     [("book", .pyDict [("type", .pyStr "str")]),
                      ("chapter", .pyDict [("type", .pyStr "int")])])])])
      = .ok (.pyDict [("name", .pyStr "get_verse_by_chapter"),
                      ("arguments", .pyDict [("book", .pyStr "John"), ("chapter", .pyInt 3)])]) :=
  validate_argument_idempotent_on_typed_invocation
    [("name", .pyStr "get_verse_by_chapter"),
     ("arguments", .pyDict [("book", .pyStr "John"), ("chapter", .pyInt 3)])]
    [("book", .pyStr "John"), ("chapter", .pyInt 3)]
    (.pyDict [("name", .pyStr "get_verse_by_chapter"),
              ("parameters", .pyDict [("properties", .pyDict
                 [("book", .pyDict [("type", .pyStr "str")]),
                  ("chapter", .pyDict [("type", .pyStr "int")])])])])
    (.pyDict [("properties", .pyDict
       [("book", .pyDict [("type", .pyStr "str")]),
        ("chapter", .pyDict [("type", .pyStr "int")])])])
    (.pyDict [("book", .pyDict [("type", .pyStr "str")]),
              ("chapter", .pyDict [("type", .pyStr "int")])])
    rfl rfl rfl
    (by
      intro p hp
      rcases List.mem_cons.mp hp with h | h
      · subst h; exact ⟨.pyDict [("type", .pyStr "str")], "str", rfl, rfl, rfl, rfl⟩
      · rcases List.mem_cons.mp h with h2 | h2
        · subst h2; exact ⟨.pyDict [("type", .pyStr "int")], "int", rfl, rfl, rfl, rfl⟩
        · cases h2)

/-- C6: against a parameter declared with a numeric type, a textual
representation of a valid number is coerced to the corresponding
numeric value: the integer denoted for an `int` parameter, the (exact)
real value denoted for a `float` parameter. -/
theorem validate_argument_coerces_numeric_text
    (nm : PyVal) (a s : String) (sig params properties : PyVal) :
    (∀ k : Int, pyIntOfString s = some k →
        pyGet sig "parameters" = .ok params →
        pyGet params "properties" = .ok properties →
        pyGet properties a = .ok (.pyDict [("type", .pyStr "int")]) →
        validate_argument
            (.pyDict [("name", nm), ("arguments", .pyDict [(a, .pyStr s)])]) sig
          = .ok (.pyDict [("name", nm), ("arguments", .pyDict [(a, .pyInt k)])])) ∧
    (∀ q : Rat, pyFloatOfString s = some q →
        pyGet sig "parameters" = .ok params →
        pyGet params "properties" = .ok properties →
        pyGet properties a = .ok (.pyDict [("type", .pyStr "float")]) →
        validate_argument
            (.pyDict [("name", nm), ("arguments", .pyDict [(a, .pyStr s)])]) sig
          = .ok (.pyDict [("name", nm), ("arguments", .pyDict [(a, .pyFloat q)])])) := by
  constructor
  · intro k hk hsig1 hsig2 hprop
    have hstep : stepArg properties a (.pyStr s) = .ok (.pyInt k) := by
      simp only [stepArg, hprop, pyGetOpt, assocFind, pyConvert, hk]
      rfl
    have hget : pyGet (.pyDict [("name", nm), ("arguments", .pyDict [(a, .pyStr s)])])
        "arguments" = .ok (.pyDict [(a, .pyStr s)]) := rfl
    simp only [validate_argument, hsig1, hsig2, hget, validateItems, hstep]
    rfl
  · intro q hq hsig1 hsig2 hprop
    have hstep : stepArg properties a (.pyStr s) = .ok (.pyFloat q) := by
      simp only [stepArg, hprop, pyGetOpt, assocFind, pyConvert, hq]
      rfl
    have hget : pyGet (.pyDict [("name", nm), ("arguments", .pyDict [(a, .pyStr s)])])
        "arguments" = .ok (.pyDict [(a, .pyStr s)]) := rfl
    simp only [validate_argument, hsig1, hsig2, hget, validateItems, hstep]
    rfl

/-- Witness for C6 at the concrete input from the specification:
`"chapter": "3"` against `get_verse_by_chapter`'s declared integer
parameter yields integer `3`. -/
theorem validate_argument_coerces_numeric_text_witness :
    validate_argument
        (.pyDict [("name", .pyStr "get_verse_by_chapter"),
                  ("arguments", .pyDict [("chapter", .pyStr "3")])])
        (.pyDict [("parameters", .pyDict [("properties", .pyDict
           [("chapter", .pyDict [("type", .pyStr "int")])])])])
      = .ok (.pyDict [("name", .pyStr "get_verse_by_chapter"),
                      ("arguments", .pyDict [("chapter", .pyInt 3)])]) :=
  (validate_argument_coerces_numeric_text
      (.pyStr "get_verse_by_chapter") "chapter" "3"
      (.pyDict [("parameters", .pyDict [("properties", .pyDict
         [("chapter", .pyDict [("type", .pyStr "int")])])])])
      (.pyDict [("properties", .pyDict [("chapter", .pyDict [("type", .pyStr "int")])])])
      (.pyDict [("chapter", .pyDict [("type", .pyStr "int")])])).1
    3 rfl rfl rfl rfl

/-- C9: against a parameter declared `bool`, `validate_argument`
coerces any non-bool value with Python's `bool` constructor; on a
string this never raises and yields `True` exactly when the string is
nonempty — so the strings `"false"` and `"False"` coerce to `True` and
only the empty string coerces to `False`. -/
theorem validate_argument_bool_coercion_truthiness :
    (∀ v : PyVal, pyConvert "bool" v = some (.pyBool (pyTruthy v))) ∧
    (∀ (nm : PyVal) (a s : String) (sig params properties : PyVal),
        pyGet sig "parameters" = .ok params →
        pyGet params "properties" = .ok properties →
        pyGet properties a = .ok (.pyDict [("type", .pyStr "bool")]) →
        validate_argument
            (.pyDict [("name", nm), ("arguments", .pyDict [(a, .pyStr s)])]) sig
          = .ok (.pyDict [("name", nm), ("arguments", .pyDict [(a, .pyBool (s != ""))])])) := by
  constructor
  · intro v; rfl
  · intro nm a s sig params properties hsig1 hsig2 hprop
    have hstep : stepArg properties a (.pyStr s) = .ok (.pyBool (s != "")) := by
      simp only [stepArg, hprop, pyGetOpt, assocFind, pyConvert, pyTruthy]
      rfl
    have hget : pyGet (.pyDict [("name", nm), ("arguments", .pyDict [(a, .pyStr s)])])
        "arguments" = .ok (.pyDict [(a, .pyStr s)]) := rfl
    simp only [validate_argument, hsig1, hsig2, hget, validateItems, hstep]
    rfl

/-- Witness for C9 at a concrete input: the string `"false"` against a
declared `bool` parameter coerces to `True`. -/
theorem validate_argument_bool_coercion_witness :
    validate_argument
        (.pyDict [("name", .pyStr "some_tool"),
                  ("arguments", .pyDict [("flag", .pyStr "false")])])
        (.pyDict [("parameters", .pyDict [("properties", .pyDict
           [("flag", .pyDict [("type", .pyStr "bool")])])])])
      = .ok (.pyDict [("name", .pyStr "some_tool"),
                      ("arguments", .pyDict [("flag", .pyBool true)])]) :=
  validate_argument_bool_coercion_truthiness.2
    (.pyStr "some_tool") "flag" "false"
    (.pyDict [("parameters", .pyDict [("properties", .pyDict
       [("flag", .pyDict [("type", .pyStr "bool")])])])])
    (.pyDict [("properties", .pyDict [("flag", .pyDict [("type", .pyStr "bool")])])])
    (.pyDict [("flag", .pyDict [("type", .pyStr "bool")])])
    rfl rfl rfl

/-! ### The response tag parser (`tool_agent.py`, lines 25-37) -/

/-- First index at which `pat` occurs as a contiguous sublist of
`text`: the leftmost-match rule of `re.search` for a literal pattern. -/
def firstOccur (text pat : List Char) : Option Nat :=
  match text with
  | [] => if pat.isEmpty then some 0 else none
  | c :: rest =>
    if pat.isPrefixOf (c :: rest) then some 0 else (firstOccur rest pat).map (· + 1)

/-- Embedding of `extract_tag_content` from `tool_agent.py`:
`re.search(f"<{tag}>(.*?)</{tag}>", text, re.DOTALL)` matches at the
leftmost opening marker that is followed (across line boundaries,
thanks to DOTALL) by a closing marker; the non-greedy group ends at the
first closing marker after it, and the captured group is returned
stripped; `None` when no such pair exists.  The model treats the tag as
a literal (the only tags ever passed, `tool_code` and `X`, contain no
regex metacharacters). -/
def extract_tag_content (text tag : String) : Option String :=
  let openMarker := ("<" ++ tag ++ ">").data
  let closeMarker := ("</" ++ tag ++ ">").data
  match firstOccur text.data openMarker with
  | none => none
  | some i =>
    let rest := text.data.drop (i + openMarker.length)
    match firstOccur rest closeMarker with
    | none => none
    | some j => some (pyStrip ⟨rest.take j⟩)

/-- C7: the three specified examples of `extract_tag_content`, plus a
multi-line block showing the match spans line boundaries: the trimmed
content strictly between the first opening and the following closing
marker is returned, only the first of several blocks is used, and
absence of a matching pair yields `None` rather than an error. -/
theorem extract_tag_content_examples :
    extract_tag_content "<X>hello</X>" "X" = some "hello" ∧
    extract_tag_content "no tags here" "X" = none ∧
    extract_tag_content "<X>a</X><X>b</X>" "X" = some "a" ∧
    extract_tag_content "<X> a\nb </X>" "X" = some "a\nb" ∧
    extract_tag_content "<X>dangling" "X" = none :=
  ⟨rfl, rfl, rfl, rfl, rfl⟩

/-! ### The signature extractor (`tool.py`, lines 8-33) -/

/-- Static metadata of a Python callable: `__name__`, `__doc__` and
`__annotations__` (each annotation recorded under its parameter name by
the annotation's `__name__`, in declaration order, the return
annotation under the key `"return"`). -/
structure PyFunction where
  name : String
  doc : Option String
  annotations : List (String × String)

/-- Embedding of `get_fn_signature` from `tool.py` (lines 8-33): a dict
with the function's name, its docstring, and one `{"type": ...}`
property per non-`return` annotation. -/
def get_fn_signature (fn : PyFunction) : PyVal :=
  .pyDict [("name", .pyStr fn.name),
           ("description", match fn.doc with | some d => .pyStr d | none => .pyNone),
           ("parameters", .pyDict [("properties", .pyDict
              ((fn.annotations.filter (fun kv => kv.1 != "return")).map
                 (fun kv => (kv.1, .pyDict [("type", .pyStr kv.2)]))))])]

/-- Metadata of `fetch_daily_verse` (`tool.py`, line 94): no
annotated parameters. -/
def fetch_daily_verse_meta : PyFunction :=
  { name := "fetch_daily_verse",
    doc := some "Fetches a random verse for the day",
    annotations := [] }

/-- Metadata of `search_topic` (`tool.py`, line 117): one annotated
parameter `topic: str`. -/
def search_topic_meta : PyFunction :=
  { name := "search_topic",
    doc := some "Searches for a verse about a specific topic using a mock-like API call",
    annotations := [("topic", "str")] }

/-- Metadata of `get_book_list` (`tool.py`, line 135): no parameters,
one return annotation `list[str]` (whose origin class is `list`). -/
def get_book_list_meta : PyFunction :=
  { name := "get_book_list",
    doc := some "Returns a list of all books in the bible",
    annotations := [("return", "list")] }

/-- Metadata of `get_verse_by_chapter` (`tool.py`, line 140): annotated
parameters `book: str` and `chapter: int`. -/
def get_verse_by_chapter_meta : PyFunction :=
  { name := "get_verse_by_chapter",
    doc := some "Returns required book and its chapter",
    annotations := [("book", "str"), ("chapter", "int")] }

/-- C8: for each of the four registered tools, `get_fn_signature`
produces a properties mapping whose keys are exactly the callable's
declared non-return parameter names, each tagged with the annotation's
class name: no parameters for `fetch_daily_verse`, `topic: str` for
`search_topic`, no parameters for `get_book_list` (its return
annotation is excluded), and `book: str`, `chapter: int` for
`get_verse_by_chapter`. -/
theorem get_fn_signature_matches_declared_parameters :
    get_fn_signature fetch_daily_verse_meta
      = .pyDict [("name", .pyStr "fetch_daily_verse"),
                 ("description", .pyStr "Fetches a random verse for the day"),
                 ("parameters", .pyDict [("properties", .pyDict [])])] ∧
    get_fn_signature search_topic_meta
      = .pyDict [("name", .pyStr "search_topic"),
                 ("description", .pyStr "Searches for a verse about a specific topic using a mock-like API call"),
                 ("parameters", .pyDict [("properties", .pyDict
                    [("topic", .pyDict [("type", .pyStr "str")])])])] ∧
    get_fn_signature get_book_list_meta
      = .pyDict [("name", .pyStr "get_book_list"),
                 ("description", .pyStr "Returns a list of all books in the bible"),
                 ("parameters", .pyDict [("properties", .pyDict [])])] ∧
    get_fn_signature get_verse_by_chapter_meta
      = .pyDict [("name", .pyStr "get_verse_by_chapter"),
                 ("description", .pyStr "Returns required book and its chapter"),
                 ("parameters", .pyDict [("properties", .pyDict
                    [("book", .pyDict [("type", .pyStr "str")]),
                     ("chapter", .pyDict [("type", .pyStr "int")])])])] :=
  ⟨rfl, rfl, rfl, rfl⟩

/-! ### The orchestrator (`tool_agent.py`, `ToolAgent.run`, lines 77-164)

The LLM client and `json.loads` are external collaborators, so the
embedded `ToolAgent.run` takes them as parameters: the result of each
of the two `chat.completions.create` calls is an `LLMResult` oracle,
and `loads` maps the tagged payload to the deserialized value or to a
decoding failure. -/

/-- A tool as registered in `tool_agent.py` (lines 168-189): a name,
the wrapped callable (an external collaborator which may perform
network I/O and may raise), and the structured signature. -/
structure Tool where
  name : String
  fn : List (String × PyVal) → Except Unit PyVal
  fn_signature : PyVal

/-- `Tool.run` from `tool.py` (lines 80-85): forward the keyword
arguments to the wrapped callable. -/
def Tool.run (t : Tool) (kwargs : List (String × PyVal)) : Except Unit PyVal :=
  t.fn kwargs

/-- Outcome of one `chat.completions.create` call: the call raises, or
returns a response whose `choices` each hold an optional
`message.content`. -/
inductive LLMResult where
  | raises : LLMResult
  | response : List (Option String) → LLMResult

/-- Outcome of `ToolAgent.run`: either a returned Python value (`none`
models returning Python `None`, which happens when the function body
falls through without a `return`), or the `RuntimeError` explicitly
raised when model call #1 fails. -/
inductive RunOutcome where
  | ret : Option String → RunOutcome
  | raisesRuntimeError : RunOutcome
deriving Repr, DecidableEq

/-- Python `tool.name == name` where `name` came from the parsed JSON:
equality of a string with an arbitrary value (false, never raising, on
non-strings). -/
def pyValEqStr (v : PyVal) (s : String) : Bool :=
  match v with
  | .pyStr t => t == s
  | _ => false

/-- Model of `str(e)` for the exceptions the `except` handler can
receive. -/
def pyErrMsg : PyErr → String
  | .keyError k => "KeyError: " ++ k
  | .typeError m => "TypeError: " ++ m
  | .attributeError m => "AttributeError: " ++ m
  | .indexError => "IndexError: list index out of range"
  | .jsonDecodeError => "JSONDecodeError: Expecting value"
  | .toolExecutionError => "ToolExecutionError"
  | .providerError => "ProviderError"

/-- The degraded message built by the `except` handler at line 161 of
`tool_agent.py`. -/
def troubleMsg (e : PyErr) : String :=
  "Sorry, I had trouble processing the tool call. Error: " ++ pyErrMsg e

/-- The fixed message returned when the first response carries no
usable content (line 115 of `tool_agent.py`). -/
def noResponseMsg : String :=
  "Sorry, I couldn\x27t get a response from the LLM."

/-- The body of the `try:` block of `ToolAgent.run` (lines 122-158):
deserialize the tagged payload, read its `name` and `arguments`,
locate the tool with `next(..., None)`, validate, execute, and issue
model call #2; any raised exception is propagated to the `except`
handler as the `Except.error` case.  When the named tool is not in the
registry the `if tool_object:` block is skipped and no value is
produced, which is modelled by `.ok none` (Python `None`). -/
def runToolBranch (tools : List Tool) (loads : String → Except Unit PyVal)
    (call2 : LLMResult) (tool_call_json : String) : Except PyErr (Option String) :=
  match loads tool_call_json with
  | .error _ => .error .jsonDecodeError
  | .ok tool_call_deserialized =>
    match pyGet tool_call_deserialized "name" with
    | .error e => .error e
    | .ok nameVal =>
      match pyGet tool_call_deserialized "arguments" with
      | .error e => .error e
      | .ok _argumentsVal =>
        match tools.find? (fun t => pyValEqStr nameVal t.name) with
        | none => .ok none
        | some tool_object =>
          match validate_argument tool_call_deserialized tool_object.fn_signature with
          | .error e => .error e
          | .ok validated_call =>
            match pyGet validated_call "arguments" with
            | .ok (.pyDict kwargs) =>
              match tool_object.run kwargs with
              | .error _ => .error .toolExecutionError
              | .ok _observation =>
                match call2 with
                | .raises => .error .providerError
                | .response cs2 =>
                  match cs2 with
                  | [] => .error .indexError
                  | content :: _ => .ok content
            | .ok _ => .error (.typeError "argument unpacking requires a mapping")
            | .error e => .error e

/-- Embedding of `ToolAgent.run` (lines 77-164): model call #1 failing
raises `RuntimeError`; an empty/absent first content returns the fixed
no-response message; a truthy tagged payload enters the `try:` block,
whose exceptions all degrade to the trouble message; an absent (or
falsy, i.e. empty) payload returns the first content verbatim. -/
def ToolAgent.run (tools : List Tool) (loads : String → Except Unit PyVal)
    (call1 call2 : LLMResult) : RunOutcome :=
  match call1 with
  | .raises => .raisesRuntimeError
  | .response choices =>
    match choices with
    | (some llm_content) :: _ =>
      if llm_content = "" then .ret (some noResponseMsg)
      else
        match extract_tag_content llm_content "tool_code" with
        | some tool_call_json =>
          if tool_call_json = "" then .ret (some llm_content)
          else
            match runToolBranch tools loads call2 tool_call_json with
            | .ok out => .ret out
            | .error e => .ret (some (troubleMsg e))
        | none => .ret (some llm_content)
    | _ => .ret (some noResponseMsg)

/-- C1: when model call #1 requests a tool name absent from the
registry, `ToolAgent.run` returns Python `None` — not an "unknown
tool" message — because the `if tool_object:` block is skipped and the
function falls through without producing output; the outcome is the
same whatever model call #2 would return, i.e. call #2 is not issued.
This evaluates the code at the failing input of the claim. -/
theorem run_unknown_tool_returns_none (call2 : LLMResult) :
    ToolAgent.run
      [⟨"search_topic", fun _ => .ok (.pyStr "obs"), get_fn_signature search_topic_meta⟩]
      (fun _ => .ok (.pyDict [("name", .pyStr "no_such_tool"), ("arguments", .pyDict [])]))
      (.response [some "<tool_code>call</tool_code>"]) call2 = .ret none :=
  rfl

/-- Counterexample to C2 at a concrete input: a turn that reaches
model call #2 (the tagged payload names `get_book_list`, which
validates and executes) whose call #2 raises is NOT terminated by a
raised condition — the orchestrator converts it into the user-facing
degraded "trouble processing the tool call" string. -/
theorem run_call2_failure_counterexample :
    ToolAgent.run
        [⟨"get_book_list", fun _ => .ok (.pyList [.pyStr "Matthew", .pyStr "Mark", .pyStr "Luke", .pyStr "John"]),
          get_fn_signature get_book_list_meta⟩]
        (fun _ => .ok (.pyDict [("name", .pyStr "get_book_list"), ("arguments", .pyDict [])]))
        (.response [some "<tool_code>call</tool_code>"]) .raises
      = .ret (some (troubleMsg .providerError)) ∧
    ToolAgent.run
        [⟨"get_book_list", fun _ => .ok (.pyList [.pyStr "Matthew", .pyStr "Mark", .pyStr "Luke", .pyStr "John"]),
          get_fn_signature get_book_list_meta⟩]
        (fun _ => .ok (.pyDict [("name", .pyStr "get_book_list"), ("arguments", .pyDict [])]))
        (.response [some "<tool_code>call</tool_code>"]) .raises
      ≠ .raisesRuntimeError :=
  ⟨rfl, by decide⟩

/-- C2 (amended): a failure of model call #2 is caught by the
orchestrator's generic `except` handler and converted into the
user-facing degraded "trouble processing the tool call" string — it is
handled differently from a failure of model call #1, which alone
terminates the turn by raising `RuntimeError`. -/
theorem run_call2_failure_degrades
    (tools : List Tool) (loads : String → Except Unit PyVal)
    (c body : String) (d nv av vc : PyVal) (kwargs : List (String × PyVal))
    (tobj : Tool) (obs : PyVal) (anyCall2 : LLMResult)
    (hc : c ≠ "")
    (hx : extract_tag_content c "tool_code" = some body)
    (hb : body ≠ "")
    (hl : loads body = .ok d)
    (hn : pyGet d "name" = .ok nv)
    (ha : pyGet d "arguments" = .ok av)
    (hf : tools.find? (fun t => pyValEqStr nv t.name) = some tobj)
    (hv : validate_argument d tobj.fn_signature = .ok vc)
    (hva : pyGet vc "arguments" = .ok (.pyDict kwargs))
    (hrun : tobj.run kwargs = .ok obs) :
    ToolAgent.run tools loads (.response [some c]) .raises
      = .ret (some (troubleMsg .providerError)) ∧
    ToolAgent.run tools loads .raises anyCall2 = .raisesRuntimeError := by
  constructor
  · have hbr : runToolBranch tools loads .raises body = .error .providerError := by
      simp only [runToolBranch, hl, hn, ha, hf, hv, hva, hrun]
    simp only [ToolAgent.run, if_neg hc, hx, if_neg hb, hbr]
  · rfl

/-- Witness for C2's amended claim at a concrete input. -/
theorem run_call2_failure_degrades_witness :
    ToolAgent.run
        [⟨"get_book_list", fun _ => .ok (.pyList [.pyStr "Matthew"]), get_fn_signature get_book_list_meta⟩]
        (fun _ => .ok (.pyDict [("name", .pyStr "get_book_list"), ("arguments", .pyDict [])]))
        (.response [some "<tool_code>payload</tool_code>"]) .raises
      = .ret (some (troubleMsg .providerError)) ∧
    ToolAgent.run
        [⟨"get_book_list", fun _ => .ok (.pyList [.pyStr "Matthew"]), get_fn_signature get_book_list_meta⟩]
        (fun _ => .ok (.pyDict [("name", .pyStr "get_book_list"), ("arguments", .pyDict [])]))
        .raises (.response [some "final answer"]) = .raisesRuntimeError :=
  run_call2_failure_degrades
    [⟨"get_book_list", fun _ => .ok (.pyList [.pyStr "Matthew"]), get_fn_signature get_book_list_meta⟩]
    (fun _ => .ok (.pyDict [("name", .pyStr "get_book_list"), ("arguments", .pyDict [])]))
    "<tool_code>payload</tool_code>" "payload"
    (.pyDict [("name", .pyStr "get_book_list"), ("arguments", .pyDict [])])
    (.pyStr "get_book_list") (.pyDict [])
    (.pyDict [("name", .pyStr "get_book_list"), ("arguments", .pyDict [])])
    []
    ⟨"get_book_list", fun _ => .ok (.pyList [.pyStr "Matthew"]), get_fn_signature get_book_list_meta⟩
    (.pyList [.pyStr "Matthew"]) (.response [some "final answer"])
    (by decide) rfl (by decide) rfl rfl rfl rfl rfl rfl rfl

/-- Counterexample to C3 at a concrete input: a tagged block whose
body is whitespace only strips to the empty string, which is not valid
JSON, yet the truthy check `if tool_call_json:` at line 121 of
`tool_agent.py` is false, so the tool branch is skipped and the full
model content is returned verbatim — not the "trouble processing the
tool call" message (no trouble message is a prefix of the returned
string, while every trouble message starts with the degraded
prefix). -/
theorem run_empty_tagged_block_counterexample :
    extract_tag_content "<tool_code>   </tool_code>" "tool_code" = some "" ∧
    ToolAgent.run [] (fun _ => .error ())
        (.response [some "<tool_code>   </tool_code>"]) (.response [some "unused"])
      = .ret (some "<tool_code>   </tool_code>") ∧
    ("Sorry, I had trouble processing the tool call. Error: ".data.isPrefixOf
        "<tool_code>   </tool_code>".data) = false :=
  ⟨rfl, rfl, by decide⟩

/-- C3 (amended): a tagged block whose stripped body is nonempty
(truthy) but fails JSON deserialization, or whose deserialized value
lacks the `name` or `arguments` key, makes `ToolAgent.run` return the
deterministic degraded "trouble processing the tool call" message
built from the caught exception — the turn never raises.  (A tagged
block whose body strips to the empty string is falsy and instead makes
the orchestrator return the full model content verbatim.) -/
theorem run_malformed_invocation_degrades
    (tools : List Tool) (loads : String → Except Unit PyVal) (call2 : LLMResult)
    (c body : String)
    (hc : c ≠ "") (hx : extract_tag_content c "tool_code" = some body) (hb : body ≠ "") :
    (loads body = .error () →
        ToolAgent.run tools loads (.response [some c]) call2
          = .ret (some (troubleMsg .jsonDecodeError))) ∧
    (∀ d e, loads body = .ok d → pyGet d "name" = .error e →
        ToolAgent.run tools loads (.response [some c]) call2
          = .ret (some (troubleMsg e))) ∧
    (∀ d nv e, loads body = .ok d → pyGet d "name" = .ok nv →
        pyGet d "arguments" = .error e →
        ToolAgent.run tools loads (.response [some c]) call2
          = .ret (some (troubleMsg e))) := by
  refine ⟨fun hl => ?_, fun d e hl hn => ?_, fun d nv e hl hn ha => ?_⟩
  · have hbr : runToolBranch tools loads call2 body = .error .jsonDecodeError := by
      simp only [runToolBranch, hl]
    simp only [ToolAgent.run, if_neg hc, hx, if_neg hb, hbr]
  · have hbr : runToolBranch tools loads call2 body = .error e := by
      simp only [runToolBranch, hl, hn]
    simp only [ToolAgent.run, if_neg hc, hx, if_neg hb, hbr]
  · have hbr : runToolBranch tools loads call2 body = .error e := by
      simp only [runToolBranch, hl, hn, ha]
    simp only [ToolAgent.run, if_neg hc, hx, if_neg hb, hbr]

/-- Witness for C3 at a concrete input: the tagged body fails to
deserialize and the turn ends with the degraded message. -/
theorem run_malformed_invocation_degrades_witness :
    ToolAgent.run [] (fun _ => .error ())
        (.response [some "<tool_code>not valid json</tool_code>"])
        (.response [some "unused"])
      = .ret (some (troubleMsg .jsonDecodeError)) :=
  (run_malformed_invocation_degrades [] (fun _ => .error ())
      (.response [some "unused"]) "<tool_code>not valid json</tool_code>" "not valid json"
      (by decide) rfl (by decide)).1 rfl

/-! ### The two copies of `get_verse_by_chapter` -/

/-- Python `str.lower()` (modelled on basic latin letters, which covers
every string the program compares). -/
def pyLower (s : String) : String :=
  ⟨s.data.map Char.toLower⟩

/-- Python `chapter == 3` for an `int` literal against an arbitrary
runtime value (annotations are not enforced, so the argument may have
any runtime type; numeric cross-type equality holds in Python, strings
never compare equal to numbers). -/
def pyValEqInt (v : PyVal) (m : Int) : Bool :=
  match v with
  | .pyInt n => n == m
  | .pyBool b => (if b then (1 : Int) else 0) == m
  | .pyFloat q => q == (m : Rat)
  | _ => false

/-- The verse literal both copies return on success. -/
def john316 : String :=
  "John 3:16 - For God so loved the world, that he gave his only Son, that whoever believes in him should not perish but have eternal life."

/-- Embedding of `get_verse_by_chapter` from `tool.py` (lines 140-147):
success condition `book.lower()=="john" and chapter==3`. -/
def get_verse_by_chapter (book : String) (chapter : PyVal) : String :=
  if pyLower book == "john" && pyValEqInt chapter 3 then
    john316
  else
    "Sorry I couldn\x27t find the verse from \x27" ++ book ++ "\x27 chapter " ++ pyStrOfVal chapter

namespace DailyVerseAgent

/-- Embedding of `get_verse_by_chapter` from `daily_verse_agent.py`
(lines 60-67): success condition `book.lower()=="John" and
chapter=="3"`, comparing the lowered book against a capitalized
literal and the chapter against a string literal. -/
def get_verse_by_chapter (book : String) (chapter : PyVal) : String :=
  if pyLower book == "John" && pyValEqStr chapter "3" then
    john316
  else
    "Sorry I couldn\x27t find the verse from \x27" ++ book ++ "\x27 chapter " ++ pyStrOfVal chapter

end DailyVerseAgent

/-- `Char.toLower` never produces the uppercase letter `J`. -/
theorem char_toLower_ne_J (c : Char) : Char.toLower c ≠ 'J' := by
  intro hEq
  simp only [Char.toLower] at hEq
  by_cases hcond : Char.toNat c ≥ 65 ∧ Char.toNat c ≤ 90
  · rw [if_pos hcond] at hEq
    have hvalid : (Char.toNat c + 32).isValidChar := Or.inl (by omega)
    have hv : (Char.ofNat (Char.toNat c + 32)).toNat = Char.toNat c + 32 := by
      rw [Char.ofNat, dif_pos hvalid]
      rfl
    rw [hEq] at hv
    have hJ : Char.toNat 'J' = 74 := rfl
    omega
  · rw [if_neg hcond] at hEq
    subst hEq
    exact hcond (by decide)

/-- No Python string lower-cases to the capitalized literal `"John"`. -/
theorem pyLower_ne_John (s : String) : pyLower s ≠ "John" := by
  intro h
  have hd : s.data.map Char.toLower = "John".data := congrArg String.data h
  cases hs : s.data with
  | nil => rw [hs] at hd; exact absurd hd (by decide)
  | cons c cs =>
    rw [hs] at hd
    have hJohn : "John".data = 'J' :: "ohn".data := by decide
    rw [hJohn, List.map_cons] at hd
    injection hd with h1 _
    exact char_toLower_ne_J c h1

/-- C10: the two copies of `get_verse_by_chapter` are not equivalent.
The copy in `daily_verse_agent.py` returns the "Sorry I couldn't find
the verse" message for every `(book, chapter)` input, because its
success condition `book.lower()=="John"` can never hold; the copy in
`tool.py` returns the John 3:16 verse text whenever `book` lower-cases
to `"john"` and `chapter` equals the integer `3`; in particular the
two disagree at `("John", 3)`. -/
theorem get_verse_by_chapter_copies_diverge :
    (∀ (book : String) (chapter : PyVal),
        DailyVerseAgent.get_verse_by_chapter book chapter
          = "Sorry I couldn\x27t find the verse from \x27" ++ book ++ "\x27 chapter "
              ++ pyStrOfVal chapter) ∧
    (∀ (book : String) (chapter : PyVal),
        pyLower book = "john" → pyValEqInt chapter 3 = true →
        get_verse_by_chapter book chapter = john316) ∧
    get_verse_by_chapter "John" (.pyInt 3)
      ≠ DailyVerseAgent.get_verse_by_chapter "John" (.pyInt 3) := by
  refine ⟨fun book chapter => ?_, fun book chapter hlow heq => ?_, by decide⟩
  · have hfalse : (pyLower book == "John") = false :=
      beq_eq_false_iff_ne.mpr (pyLower_ne_John book)
    simp only [DailyVerseAgent.get_verse_by_chapter, hfalse, Bool.false_and,
      Bool.false_eq_true, if_false]
  · have htrue : (pyLower book == "john") = true := beq_iff_eq.mpr hlow
    simp only [get_verse_by_chapter, htrue, heq, Bool.and_self, if_true]

/-- Witness for C10 at the concrete input `("John", 3)`: the `tool.py`
copy returns the verse, the `daily_verse_agent.py` copy returns the
apology. -/
theorem get_verse_by_chapter_copies_diverge_witness :
    get_verse_by_chapter "John" (.pyInt 3) = john316 ∧
    DailyVerseAgent.get_verse_by_chapter "John" (.pyInt 3)
      = "Sorry I couldn\x27t find the verse from \x27John\x27 chapter 3" :=
  ⟨get_verse_by_chapter_copies_diverge.2.1 "John" (.pyInt 3) rfl rfl,
   get_verse_by_chapter_copies_diverge.1 "John" (.pyInt 3)⟩

end ToolUseBible
